import Mathlib

set_option autoImplicit false

/-!
Verification development for the history record lifecycle and artifact
archival subsystem of `history_manager.py` (class `HistoryManager`).

The Python module is shallowly embedded: dictionaries with a known key set
become structures with `Option` fields (a `none` models an absent key or a
stored JSON `null`), the JSON history file becomes an explicit `HFile`
state, the artifact directory tree becomes a finite map from directory
path to the list of file names it holds, and `os.path.exists` checks
consult an explicit `disk` list of existing source paths.  Operations that
can raise are embedded in `Except`.
-/

/-! ## Python-style string primitives -/

/-- Splits a list of characters on a separator character, keeping empty
segments, as Python `str.split(sep)` does for a one-character separator. -/
def splitOnChar (sep : Char) : List Char → List (List Char)
  | [] => [[]]
  | c :: rest =>
    let r := splitOnChar sep rest
    if c = sep then [] :: r else (c :: r.headD []) :: r.tail

/-- Python `str.replace`, replacing every non-overlapping occurrence of
`pat` left to right.  Structural recursion on a fuel argument (each step
consumes at least one input character, so fuel equal to the input length
always suffices); an empty pattern is returned unchanged (the module only
ever replaces the non-empty patterns `"anomaly_"` and `"_"`). -/
def replaceFuel (pat rep : List Char) : Nat → List Char → List Char
  | 0, l => l
  | _ + 1, [] => []
  | fuel + 1, c :: rest =>
    if pat ≠ [] ∧ pat.isPrefixOf (c :: rest) then
      rep ++ replaceFuel pat rep fuel ((c :: rest).drop pat.length)
    else
      c :: replaceFuel pat rep fuel rest

/-- Models Python `s.replace(pat, rep)` (all occurrences). -/
def pyReplace (s pat rep : String) : String :=
  ⟨replaceFuel pat.data rep.data s.data.length s.data⟩

/-- Does `pat` occur as a contiguous substring?  Models Python `pat in s`. -/
def subOccurs (pat : List Char) : List Char → Bool
  | [] => pat.isEmpty
  | c :: rest => pat.isPrefixOf (c :: rest) || subOccurs pat rest

/-- Models Python `pat in s` for strings. -/
def pyContains (s pat : String) : Bool := subOccurs pat.data s.data

/-- Models Python slicing `s[:n]` (by code point, as `String.data` is). -/
def pyTake (n : Nat) (s : String) : String := ⟨s.data.take n⟩

/-- Models Python `str.title()` for the ASCII keys it is applied to: the
first letter of each alphabetic run is uppercased, the rest lowercased. -/
def titleAux : Bool → List Char → List Char
  | _, [] => []
  | prevAlpha, c :: rest =>
    let c' := if c.isAlpha then (if prevAlpha then c.toLower else c.toUpper) else c
    c' :: titleAux c.isAlpha rest

/-- Models Python `s.title()`. -/
def pyTitle (s : String) : String := ⟨titleAux false s.data⟩

/-- Models `Path(p).name`: the final component after the last `/`. -/
def baseName (p : String) : String := ⟨(splitOnChar '/' p.data).getLastD []⟩

/-- Python-dict lookup on an insertion-ordered association list where a
later binding of the same key overwrites an earlier one. -/
def dictGet (m : List (String × String)) (k : String) : Option String :=
  match m with
  | [] => none
  | (k', v) :: rest =>
    match dictGet rest k with
    | some v' => some v'
    | none => if k' = k then some v else none

/-- Python truthiness filter on an optional string: `None` and the empty
string are falsy. -/
def truthyOpt : Option String → Option String
  | none => none
  | some s => if s = "" then none else some s

/-! ## Numeric and timestamp formatting helpers -/

/-- Floor of a rational as an integer (`Int.fdiv` floors). -/
def ratFloor (q : ℚ) : Int := Int.fdiv q.num (q.den : Int)

/-- Zero-pads a natural below 100 to two digits, as `%02d`-style fields of
`strftime` and the `:.2f` fractional part need. -/
def pad2 (n : Nat) : String := if n < 10 then "0" ++ toString n else toString n

/-- Models the Python format spec `:.2f` on the module's stored numbers
(rounding to the nearest hundredth, half away from zero; the binary-float
half-even corner of CPython is not reproduced, no claim depends on it). -/
def formatQ2 (q : ℚ) : String :=
  let neg := q < 0
  let a : ℚ := if neg then -q else q
  let n : Nat := (ratFloor (a * 100 + 1 / 2)).toNat
  (if neg then "-" else "") ++ toString (n / 100) ++ "." ++ pad2 (n % 100)

/-- Digits of a decimal string, or `none` when not all digits. -/
def digitsToNat? (l : List Char) : Option Nat :=
  if l.isEmpty || !(l.all Char.isDigit) then none
  else some (l.foldl (fun a c => a * 10 + (c.toNat - 48)) 0)

/-- English month names of the C locale, as `strftime("%B")` renders. -/
def monthName : Nat → String
  | 1 => "January" | 2 => "February" | 3 => "March" | 4 => "April"
  | 5 => "May" | 6 => "June" | 7 => "July" | 8 => "August"
  | 9 => "September" | 10 => "October" | 11 => "November" | 12 => "December"
  | _ => ""

/-- Date part of `datetime.fromisoformat`: exactly `YYYY-MM-DD`. -/
def parseDate (l : List Char) : Option (Nat × Nat × Nat) :=
  match splitOnChar '-' l with
  | [y, m, d] =>
    if y.length = 4 ∧ m.length = 2 ∧ d.length = 2 then
      match digitsToNat? y, digitsToNat? m, digitsToNat? d with
      | some yn, some mn, some dn =>
        if 1 ≤ mn ∧ mn ≤ 12 ∧ 1 ≤ dn ∧ dn ≤ 31 then some (yn, mn, dn) else none
      | _, _, _ => none
    else none
  | _ => none

/-- Time part of `datetime.fromisoformat`: `HH[:MM[:SS[.ffffff]]]`. -/
def parseTime (l : List Char) : Option (Nat × Nat × Nat) :=
  let main := (splitOnChar '.' l).headD []
  let check := fun (h m s : List Char) =>
    match digitsToNat? h, digitsToNat? m, digitsToNat? s with
    | some hn, some mn, some sn =>
      if h.length = 2 ∧ m.length = 2 ∧ s.length = 2 ∧ hn ≤ 23 ∧ mn ≤ 59 ∧ sn ≤ 59
      then some (hn, mn, sn) else none
    | _, _, _ => none
  match splitOnChar ':' main with
  | [h, m, s] => check h m s
  | [h, m] => check h m ['0', '0']
  | [h] => check h ['0', '0'] ['0', '0']
  | _ => none

/-- Renders a parsed timestamp with `strftime("%d %B %Y, %H:%M:%S")`. -/
def renderDt (y m d hh mi ss : Nat) : String :=
  pad2 d ++ " " ++ monthName m ++ " " ++ toString y ++ ", " ++
    pad2 hh ++ ":" ++ pad2 mi ++ ":" ++ pad2 ss

/-- Models `HistoryManager._format_timestamp`: parse the stored ISO
timestamp (`datetime.fromisoformat` is modelled for the standard shapes
`datetime.isoformat()` emits) and reformat it; on a parse failure the
input is returned unchanged (the `except (ValueError, TypeError)` arm). -/
def formatTimestamp (iso : String) : String :=
  match splitOnChar 'T' iso.data with
  | [d] =>
    match parseDate d with
    | some (y, m, dd) => renderDt y m dd 0 0 0
    | none => iso
  | [d, t] =>
    match parseDate d, parseTime t with
    | some (y, m, dd), some (hh, mi, ss) => renderDt y m dd hh mi ss
    | _, _ => iso
  | _ => iso

/-! ## Data model -/

/-- One localization event dictionary, as consumed through `loc.get(...)`:
a `none` field models an absent key. -/
structure Loc where
  event : Option String
  start_ts : Option ℚ
  end_ts : Option ℚ
  duration : Option ℚ
  confidence : Option String
  metrics : Option (List (String × String))
  image : Option String
deriving DecidableEq, Repr

/-- One entry of `conclusion["primary_findings"]`. -/
structure Finding where
  finding : Option String
  confidence : Option String
  interpretation : Option String
deriving DecidableEq, Repr

/-- The `conclusion` sub-dictionary of the forensic evidence matrix. -/
structure FermConclusion where
  reliability_assessment : Option String
  primary_findings : List Finding
deriving DecidableEq, Repr

/-- The `forensic_evidence_matrix` dictionary (only the keys this module
reads are modelled; `none` sub-fields are absent keys). -/
structure FERM where
  conclusion : Option FermConclusion
deriving DecidableEq, Repr

/-- Derived counts stored under `anomaly_types`. -/
structure AnomalyCounts where
  duplication : Nat
  insertion : Nat
  discontinuity : Nat
deriving DecidableEq, Repr

/-- The optional `additional_info` run parameters the module reads. -/
structure AddInfo where
  fps_awal : Option ℚ
  fps_baru : Option ℚ
  ssim_threshold : Option ℚ
  z_threshold : Option ℚ
deriving DecidableEq, Repr

/-- The upstream `AnalysisResult` collaborator, narrowed to exactly the
attributes `save_analysis` and `_save_artifacts` consume.  An `Option`
attribute covers both a missing attribute (`hasattr` false /
`getattr` default) and a `None` value, which the module treats alike
through truthiness except for `forensic_evidence_matrix` and friends,
where a missing attribute is stored as JSON `null` — also `none` here. -/
structure AnalysisResult where
  preservation_hash : String
  summary : String
  metadata : String
  forensic_evidence_matrix : Option FERM
  localization_details : Option String
  pipeline_assessment : Option String
  localizations : List Loc
  plots : List (String × String)
  pdf_report_path : Option String
  html_report_path : Option String
  json_report_path : Option String
deriving DecidableEq, Repr

/-- One persisted history record, with the fields `save_analysis`
assembles.  `report_pdf`/`report_html`/`report_json` are the three members
of the nested `report_paths` dictionary. -/
structure Entry where
  id : String
  timestamp : String
  video_name : String
  artifacts_folder : String
  preservation_hash : String
  summary : String
  metadata : String
  forensic_evidence_matrix : Option FERM
  localization_details : Option String
  pipeline_assessment : Option String
  localizations : List Loc
  localizations_count : Nat
  anomaly_types : AnomalyCounts
  saved_artifacts : List (String × String)
  additional_info : Option AddInfo
  report_pdf : Option String
  report_html : Option String
  report_json : Option String
deriving DecidableEq, Repr

/-- One row of the auxiliary sqlite `settings` table. -/
structure SettingsRow where
  id : String
  video_name : String
  timestamp : String
  fps_awal : Option ℚ
  fps_baru : Option ℚ
  ssim_thresh : Option ℚ
  z_thresh : Option ℚ
deriving DecidableEq, Repr

/-- State of the backing `analysis_history.json` file: parseable JSON list,
unparseable content, or a missing file. -/
inductive HFile where
  | ok (entries : List Entry)
  | corrupt
  | absent
deriving DecidableEq, Repr

/-- The filesystem-plus-store state a `HistoryManager` instance acts on.
`artifactDirs` maps each existing artifact directory path to the file
names it holds; `rootExists` tracks the artifact root directory; `disk`
is the set of external source files `os.path.exists` can find. -/
structure Store where
  hfile : HFile
  artifactDirs : List (String × List String)
  rootExists : Bool
  disk : List String
  settings : List SettingsRow
deriving DecidableEq, Repr

/-- The artifact root directory name (`history_folder` default). -/
def historyFolder : String := "analysis_artifacts"

/-- Directory lookup in the modelled tree. -/
def lookupDirs (dirs : List (String × List String)) (p : String) : Option (List String) :=
  (dirs.find? (fun d => d.1 == p)).map (fun d => d.2)

/-- `Path.mkdir(exist_ok=True)`: reuse an existing directory, else create
it empty. -/
def mkdirDirs (dirs : List (String × List String)) (p : String) : List (String × List String) :=
  if (lookupDirs dirs p).isSome then dirs else dirs ++ [(p, [])]

/-- Adds copied file names to a directory, overwriting same-named files. -/
def addFiles (dirs : List (String × List String)) (p : String) (fs : List String) :
    List (String × List String) :=
  dirs.map (fun d => if d.1 == p then (d.1, fs.foldl (fun acc f => if f ∈ acc then acc else acc ++ [f]) d.2) else d)

/-- `shutil.rmtree` on one directory of the modelled tree. -/
def removeDir (dirs : List (String × List String)) (p : String) : List (String × List String) :=
  dirs.filter (fun d => d.1 != p)

/-! ## Artifact Store: `_count_anomaly_types` and `_save_artifacts` -/

/-- The event kind tag of a localization after
`loc.get('event', '').replace('anomaly_', '')`. -/
def stripEvent (loc : Loc) : String := pyReplace (loc.event.getD "") "anomaly_" ""

/-- The loop body of `_count_anomaly_types`: increment the counter whose
key equals the stripped event tag, skipping unrecognized tags. -/
def countLoop : AnomalyCounts → List Loc → AnomalyCounts
  | acc, [] => acc
  | acc, loc :: rest =>
    let t := stripEvent loc
    let acc' :=
      if t = "duplication" then { acc with duplication := acc.duplication + 1 }
      else if t = "insertion" then { acc with insertion := acc.insertion + 1 }
      else if t = "discontinuity" then { acc with discontinuity := acc.discontinuity + 1 }
      else acc
    countLoop acc' rest

/-- Models `HistoryManager._count_anomaly_types`. -/
def countAnomalyTypes (r : AnalysisResult) : AnomalyCounts :=
  countLoop ⟨0, 0, 0⟩ r.localizations

/-- The guard `loc.get('image') and os.path.exists(loc['image'])`:
a present, non-empty (truthy) image path that exists on disk. -/
def imageResolvable (disk : List String) (loc : Loc) : Bool :=
  match loc.image with
  | none => false
  | some p => p != "" && disk.contains p

/-- One performed copy inside `_save_artifacts`: the logical key stored in
the `saved` dictionary, the source path copied from, and the target path
stored as the value. -/
structure ArtifactOp where
  key : String
  src : String
  dst : String
deriving DecidableEq, Repr

/-- The copy performed for the localization at index `i` of the truncated
list: target `sample_anomaly_frame_{i}.jpg`, key `anomaly_frame_{i}`. -/
def mkFrameOp (folder : String) (i : Nat) (loc : Loc) : ArtifactOp :=
  { key := "anomaly_frame_" ++ toString i
    src := loc.image.getD ""
    dst := folder ++ "/sample_anomaly_frame_" ++ toString i ++ ".jpg" }

/-- The plot-copy phase of `_save_artifacts`: every plot whose path exists
on disk is copied under its original filename, keyed by its plot name. -/
def plotOps (plots : List (String × String)) (folder : String) (disk : List String) :
    List ArtifactOp :=
  plots.filterMap (fun pv =>
    if disk.contains pv.2 then
      some { key := pv.1, src := pv.2, dst := folder ++ "/" ++ baseName pv.2 }
    else none)

/-- The `for i, loc in enumerate(localizations[:3])` loop of
`_save_artifacts` (the caller passes the truncated list and the start
index 0): localizations with a truthy, existing image path are copied. -/
def frameOps (folder : String) (disk : List String) : Nat → List Loc → List ArtifactOp
  | _, [] => []
  | i, loc :: rest =>
    (if imageResolvable disk loc then [mkFrameOp folder i loc] else []) ++
      frameOps folder disk (i + 1) rest

/-- One generated-report copy guard of `_save_artifacts`:
`getattr(result, attr, None) and os.path.exists(...)`. -/
def reportOp (p? : Option String) (key : String) (folder : String) (disk : List String) :
    List ArtifactOp :=
  match p? with
  | none => []
  | some p =>
    if p != "" && disk.contains p then
      [{ key := key, src := p, dst := folder ++ "/" ++ baseName p }]
    else []

/-- Models `HistoryManager._save_artifacts` as the ordered sequence of
copies it performs: plots, then the first three localizations' sample
frames, then the pdf/html/json generated reports. -/
def saveArtifactOps (r : AnalysisResult) (folder : String) (disk : List String) :
    List ArtifactOp :=
  plotOps r.plots folder disk
    ++ frameOps folder disk 0 (r.localizations.take 3)
    ++ reportOp r.pdf_report_path "pdf_report" folder disk
    ++ reportOp r.html_report_path "html_report" folder disk
    ++ reportOp r.json_report_path "json_report" folder disk

/-- The `saved` dictionary `_save_artifacts` returns: logical key to
stored target path, in insertion order. -/
def save_artifacts (r : AnalysisResult) (folder : String) (disk : List String) :
    List (String × String) :=
  (saveArtifactOps r folder disk).map (fun o => (o.key, o.dst))

/-! ## Record Store operations -/

/-- Models `HistoryManager.load_history`: a parseable file yields its
records untouched; a missing or unparseable file is reset to an empty
collection (a durable write) and an empty list is returned. -/
def loadHistory (st : Store) : List Entry × Store :=
  match st.hfile with
  | .ok l => (l, st)
  | .corrupt => ([], { st with hfile := .ok [] })
  | .absent => ([], { st with hfile := .ok [] })

/-- Models `HistoryManager.get_analysis`: linear scan for the first record
with the given id (threading the state because `load_history` may have
self-healed the backing file). -/
def getAnalysis (st : Store) (id : String) : Option Entry × Store :=
  let (history, st1) := loadHistory st
  (history.find? (fun e => e.id == id), st1)

/-- The record `save_analysis` assembles before appending it. -/
def buildEntry (r : AnalysisResult) (video_name : String) (info : Option AddInfo)
    (fid now : String) (disk : List String) : Entry :=
  let folder := historyFolder ++ "/" ++ fid
  { id := fid
    timestamp := now
    video_name := video_name
    artifacts_folder := folder
    preservation_hash := r.preservation_hash
    summary := r.summary
    metadata := r.metadata
    forensic_evidence_matrix := r.forensic_evidence_matrix
    localization_details := r.localization_details
    pipeline_assessment := r.pipeline_assessment
    localizations := r.localizations
    localizations_count := r.localizations.length
    anomaly_types := countAnomalyTypes r
    saved_artifacts := save_artifacts r folder disk
    additional_info := info
    report_pdf := truthyOpt r.pdf_report_path
    report_html := truthyOpt r.html_report_path
    report_json := truthyOpt r.json_report_path }

/-- Models `HistoryManager.save_analysis`.  `fid` stands for the freshly
generated `uuid.uuid4()` and `now` for `datetime.now().isoformat()`;
`sqliteOk` is the fault oracle for the best-effort sqlite insert, whose
failure the `try/except: pass` swallows.  The net state change is: the
artifact sub-directory is created (reused if present) and receives the
copied files, the loaded history plus the new record is written back, and
on sqlite success a settings row is appended. -/
def saveAnalysis (st : Store) (r : AnalysisResult) (video_name : String)
    (info : Option AddInfo) (fid now : String) (sqliteOk : Bool) : String × Store :=
  let folder := historyFolder ++ "/" ++ fid
  let ops := saveArtifactOps r folder st.disk
  let entry := buildEntry r video_name info fid now st.disk
  let history := (loadHistory st).1
  let dirs := addFiles (mkdirDirs st.artifactDirs folder) folder (ops.map (fun o => baseName o.dst))
  let row : SettingsRow :=
    { id := fid, video_name := video_name, timestamp := now
      fps_awal := info.bind (fun a => a.fps_awal)
      fps_baru := info.bind (fun a => a.fps_baru)
      ssim_thresh := info.bind (fun a => a.ssim_threshold)
      z_thresh := info.bind (fun a => a.z_threshold) }
  (fid, { st with
            artifactDirs := dirs
            hfile := .ok (history ++ [entry])
            settings := if sqliteOk then st.settings ++ [row] else st.settings })

/-- Models `HistoryManager.delete_analysis`.  `rmtreeOk` is the fault
oracle for `shutil.rmtree` on the record's artifact directory: when the
directory exists and removal fails, the `OSError` propagates (the JSON
collection is then never rewritten); otherwise the record is filtered out
of the loaded history and the collection rewritten. -/
def deleteAnalysis (st : Store) (id : String) (rmtreeOk : Bool) :
    Except String (Bool × Store) :=
  let (history, st1) := loadHistory st
  let (entry?, st2) := getAnalysis st1 id
  match entry? with
  | none => .ok (false, st2)
  | some e =>
    if (lookupDirs st2.artifactDirs e.artifacts_folder).isSome then
      if rmtreeOk then
        let st3 := { st2 with artifactDirs := removeDir st2.artifactDirs e.artifacts_folder }
        .ok (true, { st3 with hfile := .ok (history.filter (fun x => x.id != id)) })
      else .error "OSError"
    else
      .ok (true, { st2 with hfile := .ok (history.filter (fun x => x.id != id)) })

/-- Models `HistoryManager.delete_all_history`: count the loaded records,
remove the entire artifact root and recreate it empty, reset the durable
collection to empty, return the prior count. -/
def deleteAllHistory (st : Store) : Nat × Store :=
  let (history, st1) := loadHistory st
  (history.length, { st1 with artifactDirs := [], rootExists := true, hfile := .ok [] })

/-! ## Report Renderer -/

/-- The fixed description record `get_anomaly_description` returns (the
Python dict key `example` is spelled `example_text`, `example` being a
Lean keyword). -/
structure AnomalyDescription where
  title : String
  icon : String
  color : String
  simple : String
  technical : String
  implication : String
  example_text : String
deriving DecidableEq, Repr

/-- Models `HistoryManager.get_anomaly_description`: the fixed lookup
table over the three known kinds with a generic fallback. -/
def getAnomalyDescription (t : String) : AnomalyDescription :=
  if t = "duplication" then
    { title := "Duplikasi Frame", icon := "üîÅ", color := "#FF6B6B"
      simple := "Frame yang sama diulang beberapa kali dalam video."
      technical := "Dideteksi melalui perbandingan pHash dan dikonfirmasi dengan SIFT+RANSAC yang menemukan kecocokan fitur yang sangat tinggi antar frame."
      implication := "Ini bisa menjadi indikasi untuk memperpanjang durasi secara artifisial atau untuk menyembunyikan/menutupi konten yang telah dihapus di antara frame yang diduplikasi."
      example_text := "Seperti Anda menyalin sebuah halaman dari buku dan menempelkannya lagi di tempat lain untuk membuat buku terlihat lebih tebal." }
  else if t = "discontinuity" then
    { title := "Diskontinuitas Video", icon := "‚úÇÔ∏è", color := "#45B7D1"
      simple := "Terjadi \x27lompatan\x27 atau patahan mendadak dalam aliran visual atau gerakan video."
      technical := "Dideteksi melalui penurunan drastis pada skor SSIM (kemiripan struktural) atau lonjakan tajam pada magnitudo Optical Flow (aliran gerakan)."
      implication := "Seringkali ini adalah tanda kuat dari pemotongan (cut) dan penyambungan (paste) video. Aliran alami video terganggu."
      example_text := "Bayangkan sebuah kalimat di mana beberapa kata di tengahnya hilang, membuat kalimatnya terasa aneh dan melompat." }
  else if t = "insertion" then
    { title := "Penyisipan Konten", icon := "‚ûï", color := "#4ECDC4"
      simple := "Adanya frame atau segmen baru yang tidak ada di video asli/baseline."
      technical := "Dideteksi secara definitif dengan membandingkan hash setiap frame dari video bukti dengan video baseline. Frame yang ada di bukti tapi tidak di baseline dianggap sebagai sisipan."
      implication := "Ini adalah bukti kuat dari penambahan konten yang bisa mengubah konteks atau narasi video secara signifikan."
      example_text := "Seperti menambahkan sebuah paragraf karangan Anda sendiri ke tengah-tengah novel karya orang lain." }
  else
    { title := "Anomali Lain", icon := "‚ùì", color := "#808080"
      simple := "Jenis anomali tidak dikenali."
      technical := "-", implication := "-", example_text := "-" }

/-- The `section_header` helper of `_generate_html_report`. -/
def sectionHeader (title : String) (level : Nat) : String :=
  "<h" ++ toString level ++
    " style=\x27color:#0B3D91;border-bottom:1px solid #ddd;padding-bottom:8px;margin-top:25px;\x27>" ++
    title ++ "</h" ++ toString level ++ ">"

/-- The `get_artifact_relative_path` helper: if the logical key is bound
in `saved_artifacts`, the stored file's base name under `artifacts/`. -/
def getArtifactRelativePath (entry : Entry) (key : String) : Option String :=
  match dictGet entry.saved_artifacts key with
  | some p => some ("artifacts/" ++ baseName p)
  | none => none

/-- One conditional visualization block with an `<h3>` heading and a
trailing `<hr>` (the timeline and enhanced-map loops). -/
def visualBlockH3 (entry : Entry) (key title desc : String) : List String :=
  match getArtifactRelativePath entry key with
  | some img =>
    ["<h3>" ++ title ++ "</h3>", "<p>" ++ desc ++ "</p>",
     "<img src=\x27" ++ img ++ "\x27 alt=\x27" ++ title ++ "\x27>", "<hr>"]
  | none => []

/-- One conditional FERM visualization block with an `<h4>` heading. -/
def visualBlockH4 (entry : Entry) (key title desc : String) : List String :=
  match getArtifactRelativePath entry key with
  | some img =>
    ["<h4>" ++ title ++ "</h4>", "<p>" ++ desc ++ "</p>",
     "<img src=\x27" ++ img ++ "\x27 alt=\x27" ++ title ++ "\x27>"]
  | none => []

/-- The per-localization loop of `_generate_html_report` (`i` is the
running `enumerate` index).  The evidence image is the first bound key
among `anomaly_frame_0..2` (the `break`); the metrics block renders only
a truthy (non-empty) metrics dictionary. -/
def renderLocs (entry : Entry) : Nat → List Loc → List String
  | _, [] => []
  | i, loc :: rest =>
    let event_type := pyReplace (loc.event.getD "") "anomaly_" ""
    let d := getAnomalyDescription event_type
    let evidence :=
      match ["anomaly_frame_0", "anomaly_frame_1", "anomaly_frame_2"].findSome?
              (fun k => getArtifactRelativePath entry k) with
      | some img =>
        ["<p><strong>Bukti Visual:</strong></p>",
         "<img src=\x27" ++ img ++ "\x27 alt=\x27Bukti visual anomali\x27>"]
      | none => []
    let metricsBlock :=
      match loc.metrics with
      | none => []
      | some m =>
        if m.isEmpty then [] else
          ["<p><strong>Metrik Teknis:</strong></p>", "<div>"] ++
            m.map (fun kv =>
              "<span class=\x27metric\x27>" ++ pyTitle (pyReplace kv.1 "_" " ") ++ ": " ++ kv.2 ++ "</span>") ++
            ["</div>"]
    ["<div class=\x27anomaly-type\x27>",
     "<h3>" ++ d.icon ++ " Peristiwa #" ++ toString (i + 1) ++ ": " ++ d.title ++ "</h3>",
     "<p><strong>Lokasi:</strong> " ++ formatQ2 (loc.start_ts.getD 0) ++ "s - " ++
       formatQ2 (loc.end_ts.getD 0) ++ "s (Durasi: " ++ formatQ2 (loc.duration.getD 0) ++ "s)</p>",
     "<p><strong>Tingkat Kepercayaan:</strong> " ++ loc.confidence.getD "N/A" ++ "</p>",
     "<div class=\x27explanation-box\x27>",
     "<p><strong>Penjelasan:</strong> " ++ d.simple ++ "</p>",
     "<p><strong>Implikasi Forensik:</strong> " ++ d.implication ++ "</p>",
     "</div>"] ++ evidence ++ metricsBlock ++ ["</div>"] ++
    renderLocs entry (i + 1) rest

/-- Models `HistoryManager._generate_html_report`.  A record saved from a
result without a `forensic_evidence_matrix` attribute stores JSON `null`
there; `entry.get("forensic_evidence_matrix", {})` then yields `None` and
the following `.get("conclusion", {})` raises `AttributeError`, mirrored
here as `Except.error`.  Otherwise the document is assembled purely from
the record, in the source's fixed section order. -/
def generateHtmlReport (entry : Entry) : Except String String :=
  match entry.forensic_evidence_matrix with
  | none => Except.error "AttributeError"
  | some ferm =>
    let reliability := (ferm.conclusion.bind (fun c => c.reliability_assessment)).getD "N/A"
    let video_name := entry.video_name
    let timestamp := entry.timestamp
    let reliability_color :=
      if pyContains reliability "Tinggi" then "#28a745"
      else if pyContains reliability "Sedang" then "#ffc107"
      else "#dc3545"
    let headBlock : List String := [
      "<!DOCTYPE html>",
      "<html lang=\x27id\x27>",
      "<head>",
      "    <meta charset=\x27utf-8\x27>",
      "    <meta name=\x27viewport\x27 content=\x27width=device-width, initial-scale=1.0\x27>",
      "    <title>Laporan Forensik Video - " ++ video_name ++ "</title>",
      "    <style>",
      "        body \x7b font-family: \x27Segoe UI\x27, Tahoma, Geneva, Verdana, sans-serif; line-height: 1.6; color: #333; max-width: 1200px; margin: 0 auto; padding: 20px; \x7d",
      "        h1, h2, h3, h4 \x7b color: #0B3D91; \x7d",
      "        h1 \x7b text-align: center; border-bottom: 2px solid #0B3D91; padding-bottom: 10px; \x7d",
      "        img \x7b max-width: 100%; height: auto; border-radius: 5px; margin: 15px 0; box-shadow: 0 2px 5px rgba(0,0,0,0.1); \x7d",
      "        .metadata \x7b background-color: #f8f9fa; padding: 15px; border-radius: 8px; margin: 20px 0; border-left: 5px solid #0B3D91; \x7d",
      "        .reliability-badge \x7b display: inline-block; padding: 8px 15px; color: white; font-weight: bold; border-radius: 4px; margin: 10px 0; \x7d",
      "        .two-column \x7b display: flex; flex-wrap: wrap; gap: 20px; \x7d",
      "        .two-column > div \x7b flex: 1; min-width: 300px; \x7d",
      "        .explanation-box \x7b background-color: #f0f7ff; padding: 15px; border-radius: 8px; margin: 15px 0; border-left: 4px solid #0c6dd6; \x7d",
      "        .disclaimer \x7b background-color: #ffe6cc; padding: 15px; border-radius: 8px; margin: 20px 0; font-style: italic; \x7d",
      "        .method-card \x7b background-color: white; border: 1px solid #ddd; border-radius: 8px; padding: 15px; margin: 10px 0; \x7d",
      "        .method-card h3 \x7b margin-top: 0; border-bottom: 1px solid #eee; padding-bottom: 8px; \x7d",
      "        .anomaly-type \x7b margin-bottom: 20px; padding-bottom: 10px; border-bottom: 1px solid #eee; \x7d",
      "        .findings-section \x7b background-color: #f8f9fa; padding: 20px; border-radius: 8px; margin: 20px 0; \x7d",
      "        .metric \x7b display: inline-block; background-color: #e9ecef; padding: 5px 10px; border-radius: 4px; margin: 3px; font-size: 0.9em; \x7d",
      "        .footer \x7b text-align: center; margin-top: 40px; padding-top: 20px; border-top: 1px solid #ddd; font-size: 0.9em; color: #666; \x7d",
      "    </style>",
      "</head>",
      "<body>",
      "<h1>Laporan Analisis Forensik Video</h1>",
      "<div class=\x27metadata\x27>",
      "    <p><strong>File:</strong> " ++ video_name ++ "</p>",
      "    <p><strong>Waktu Analisis:</strong> " ++ formatTimestamp timestamp ++ "</p>",
      "    <p><strong>Hash SHA-256:</strong> " ++ pyTake 20 entry.preservation_hash ++ "...</p>",
      "    <p><strong>Penilaian Reliabilitas:</strong> <span class=\x27reliability-badge\x27 style=\x27background-color:" ++ reliability_color ++ "\x27>" ++ reliability ++ "</span></p>",
      "</div>",
      sectionHeader "Ringkasan Eksekutif" 2,
      "<p>Analisis forensik video ini dilakukan menggunakan metodologi standar Digital Forensics Research Workshop (DFRWS) yang ",
      "terdiri dari enam tahap: Identifikasi, Preservasi, Pengumpulan, Pemeriksaan, Analisis, dan Pelaporan. ",
      "Sistem menggunakan metode utama <strong>K-Means</strong> dan <strong>Localization Tampering</strong> dengan ",
      "dukungan <strong>Error Level Analysis (ELA)</strong> dan <strong>Scale-Invariant Feature Transform (SIFT)</strong>.</p>"]
    let disclaimerBlock : List String := [
      "<div class=\x27disclaimer\x27>",
      "    <p><strong>CATATAN PENTING:</strong> Hasil analisis yang disajikan dalam laporan ini adalah produk dari sistem otomatis ",
      "    forensik video. Meskipun dirancang menggunakan metodologi dan algoritma ilmiah, semua temuan harus divalidasi dan ",
      "    diinterpretasikan lebih lanjut oleh ahli forensik video yang berkualifikasi. Sistem hanya dapat mengidentifikasi anomali ",
      "    berdasarkan pola statistik dan visual; interpretasi akhir tentang implikasi forensik dan konteks faktual dari anomali ",
      "    tersebut memerlukan penilaian manusia.</p>",
      "</div>"]
    let primary_findings := (ferm.conclusion.map (fun c => c.primary_findings)).getD []
    let findingsBlock : List String :=
      if primary_findings.isEmpty then [] else
        ["<div class=\x27findings-section\x27>", "<h3>Temuan Utama:</h3>", "<ul>"] ++
          (primary_findings.map (fun f =>
            ["<li><strong>" ++ f.finding.getD "" ++ "</strong> (" ++ f.confidence.getD "N/A" ++ ")",
             "<p><em>Interpretasi:</em> " ++ f.interpretation.getD "" ++ "</p></li>"])).flatten ++
          ["</ul>", "</div>"]
    let methodologyBlock : List String :=
      [sectionHeader "Metodologi DFRWS" 2,
       "<p>Analisis forensik video ini mengikuti kerangka kerja DFRWS yang terstruktur dalam enam tahap berikut:</p>"]
    let dfrws_phases : List (String × String × String) := [
      ("Identifikasi", "üîç", "Mengidentifikasi bukti potensial (video) dan metadata-nya."),
      ("Preservasi", "üõ°Ô∏è", "Menjaga integritas bukti dengan hash SHA-256 dan penyimpanan frame asli."),
      ("Pengumpulan", "üì•", "Ekstraksi frame, normalisasi warna, dan penghitungan pHash."),
      ("Pemeriksaan", "üî¨", "Analisis temporal, K-Means, Error Level Analysis, dan SIFT+RANSAC."),
      ("Analisis", "üìà", "Localization Tampering dan Forensic Evidence Reliability Matrix (FERM)."),
      ("Pelaporan", "üìÑ", "Dokumentasi sistematis temuan dengan visualisasi dan penjelasan.")]
    let phasesBlock : List String :=
      ["<div class=\x27two-column\x27>"] ++
        (dfrws_phases.map (fun p =>
          ["<div class=\x27method-card\x27>",
           "<h3>" ++ p.2.1 ++ " " ++ p.1 ++ "</h3>",
           "<p>" ++ p.2.2 ++ "</p>",
           "</div>"])).flatten ++
        ["</div>"]
    let visualsBlock : List String :=
      [sectionHeader "Visualisasi Analisis Utama" 2,
       "<p>Berikut adalah visualisasi-visualisasi kunci dari hasil analisis forensik:</p>"] ++
      visualBlockH3 entry "kmeans_temporal" "Klasterisasi Warna K-Means Sepanjang Waktu"
        "Menunjukkan perpindahan antar klaster warna yang dapat mengindikasikan perubahan adegan atau diskontinuitas." ++
      visualBlockH3 entry "ssim_temporal" "Analisis Structural Similarity Index (SSIM)"
        "Menampilkan perubahan kemiripan struktural antar frame berurutan. Penurunan tajam mengindikasikan diskontinuitas." ++
      visualBlockH3 entry "optical_flow_temporal" "Analisis Aliran Optik (Optical Flow)"
        "Mengukur pergerakan piksel antar frame. Lonjakan besar menandakan gerakan abnormal yang mungkin akibat manipulasi." ++
      visualBlockH3 entry "enhanced_localization_map" "Peta Lokalisasi Tampering"
        "Visualisasi komprehensif yang menunjukkan lokasi, durasi, dan tingkat kepercayaan peristiwa anomali dalam video." ++
      visualBlockH3 entry "anomaly_infographic" "Infografis Penjelasan Anomali"
        "Penjelasan visual tentang berbagai jenis anomali, metode deteksinya, dan implikasi forensiknya." ++
      ["<h3>Analisis Matriks Keandalan Bukti Forensik (FERM)</h3>",
       "<p>FERM adalah pendekatan multi-dimensi untuk menilai keandalan bukti forensik, mempertimbangkan faktor kekuatan bukti, karakteristik anomali, dan analisis kausalitas.</p>"] ++
      visualBlockH4 entry "ferm_evidence_strength" "Kekuatan Bukti FERM"
        "Menunjukkan efektivitas relatif dari berbagai metode deteksi untuk setiap jenis anomali." ++
      visualBlockH4 entry "ferm_reliability" "Faktor-faktor Reliabilitas FERM"
        "Menampilkan faktor-faktor yang berkontribusi positif atau negatif terhadap penilaian keandalan bukti."
    let localizations := entry.localizations
    let locBlock : List String :=
      if localizations.isEmpty then
        [sectionHeader "Tidak Ditemukan Anomali Signifikan" 2,
         "<p>Analisis forensik tidak menemukan bukti anomali yang signifikan dalam video ini.</p>"]
      else
        [sectionHeader "Detail Peristiwa Anomali" 2,
         "<p>Analisis menemukan <strong>" ++ toString localizations.length ++ " peristiwa anomali</strong> dalam video ini:</p>"] ++
        renderLocs entry 0 localizations
    let conclusionBlock : List String :=
      [sectionHeader "Kesimpulan" 2] ++
      (if localizations.length > 0 then
        ["<p>Berdasarkan analisis forensik 5 tahap yang telah dilakukan, video \"" ++ video_name ++
         "\" memiliki penilaian reliabilitas \"" ++ reliability ++ "\". Sistem telah mendeteksi " ++
         toString localizations.length ++ " peristiwa anomali yang memerlukan perhatian.</p>"]
      else
        ["<p>Berdasarkan analisis forensik 5 tahap yang telah dilakukan, video \"" ++ video_name ++
         "\" memiliki penilaian reliabilitas \"" ++ reliability ++
         "\". Sistem tidak mendeteksi adanya peristiwa anomali yang signifikan dalam video ini.</p>"]) ++
      ["<p>PENTING: Hasil analisis ini adalah produk dari sistem otomatis, dan meskipun menggunakan metodologi DFRWS yang diakui secara profesional, penting untuk dipahami bahwa penilaian akhir dan interpretasi temuan memerlukan validasi dan analisis lebih lanjut oleh ahli forensik video berkualifikasi. Sistem hanya menganalisis temuan yang terdeteksi melalui algoritma; interpretasi kontekstual dan legal dari temuan tersebut berada di luar kemampuan sistem dan memerlukan penilaian manusia.</p>"]
    let footerBlock : List String := [
      "<div class=\x27footer\x27>",
      "    <p>Laporan ini dihasilkan oleh Sistem VIFA-Pro pada " ++ formatTimestamp timestamp ++ "</p>",
      "    <p>¬© VIFA-Pro - Sistem Deteksi Forensik Keaslian Video</p>",
      "</div>",
      "</body>",
      "</html>"]
    Except.ok (String.intercalate "\n"
      (headBlock ++ disclaimerBlock ++ findingsBlock ++ methodologyBlock ++ phasesBlock ++
       visualsBlock ++ locBlock ++ conclusionBlock ++ footerBlock))

/-! ## JSON serialization and the Export Packager -/

/-- JSON string escaping (quote and backslash; the module's data needs no
more). -/
def jEsc : List Char → List Char
  | [] => []
  | c :: r => (if c = '"' ∨ c = '\\' then ['\\', c] else [c]) ++ jEsc r

/-- A JSON string literal. -/
def jStr (s : String) : String := "\"" ++ String.mk (jEsc s.data) ++ "\""

/-- An optional JSON string (absent value rendered as `null`). -/
def jOptStr : Option String → String
  | none => "null"
  | some s => jStr s

/-- A JSON object from rendered `"key": value` members. -/
def jObj (fields : List String) : String :=
  "\x7b" ++ String.intercalate ", " fields ++ "\x7d"

/-- A JSON array from rendered values. -/
def jArr (items : List String) : String :=
  "[" ++ String.intercalate ", " items ++ "]"

/-- One rendered JSON object member. -/
def jField (k v : String) : String := jStr k ++ ": " ++ v

/-- A JSON number for a stored rational: integer part, then up to six
fractional digits with trailing zeros trimmed (the exact digit string of
CPython float repr is not reproduced; no claim inspects these digits). -/
def fracDigits : Nat → ℚ → List Char
  | 0, _ => []
  | fuel + 1, q =>
    let q10 := q * 10
    let d := (ratFloor q10).toNat
    Char.ofNat (48 + d) :: fracDigits fuel (q10 - (d : ℚ))

/-- Renders a rational as a JSON float literal. -/
def jQ (q : ℚ) : String :=
  let neg := q < 0
  let a : ℚ := if neg then -q else q
  let ip := (ratFloor a).toNat
  let ds := ((fracDigits 6 (a - (ip : ℚ))).reverse.dropWhile (fun c => c = '0')).reverse
  (if neg then "-" else "") ++ toString ip ++ "." ++ (if ds.isEmpty then "0" else String.mk ds)

/-- An optional JSON number. -/
def jOptQ : Option ℚ → String
  | none => "null"
  | some q => jQ q

/-- Serializes one localization dictionary: only present keys appear, in
the field order of `Loc`. -/
def jLoc (l : Loc) : String :=
  jObj (List.flatten [
    (match l.event with | none => [] | some s => [jField "event" (jStr s)]),
    (match l.start_ts with | none => [] | some q => [jField "start_ts" (jQ q)]),
    (match l.end_ts with | none => [] | some q => [jField "end_ts" (jQ q)]),
    (match l.duration with | none => [] | some q => [jField "duration" (jQ q)]),
    (match l.confidence with | none => [] | some s => [jField "confidence" (jStr s)]),
    (match l.metrics with
     | none => []
     | some m => [jField "metrics" (jObj (m.map (fun kv => jField kv.1 (jStr kv.2))))]),
    (match l.image with | none => [] | some s => [jField "image" (jStr s)])])

/-- Serializes one primary finding. -/
def jFinding (f : Finding) : String :=
  jObj (List.flatten [
    (match f.finding with | none => [] | some s => [jField "finding" (jStr s)]),
    (match f.confidence with | none => [] | some s => [jField "confidence" (jStr s)]),
    (match f.interpretation with | none => [] | some s => [jField "interpretation" (jStr s)])])

/-- Serializes the forensic evidence matrix (the modelled keys). -/
def jFerm (f : FERM) : String :=
  jObj (match f.conclusion with
    | none => []
    | some c =>
      [jField "conclusion" (jObj (List.flatten [
        (match c.reliability_assessment with
         | none => [] | some s => [jField "reliability_assessment" (jStr s)]),
        [jField "primary_findings" (jArr (c.primary_findings.map jFinding))]]))])

/-- Serializes the `additional_info` dictionary. -/
def jAddInfo : Option AddInfo → String
  | none => "\x7b\x7d"
  | some a =>
    jObj (List.flatten [
      (match a.fps_awal with | none => [] | some q => [jField "fps_awal" (jQ q)]),
      (match a.fps_baru with | none => [] | some q => [jField "fps_baru" (jQ q)]),
      (match a.ssim_threshold with | none => [] | some q => [jField "ssim_threshold" (jQ q)]),
      (match a.z_threshold with | none => [] | some q => [jField "z_threshold" (jQ q)])])

/-- Models `json.dumps(entry, indent=4)`: the full record in the field
order `save_analysis` assembles.  Whitespace/indentation of the Python
pretty-printer is not reproduced (no claim inspects it); the member
structure and order are. -/
def jsonDumpEntry (e : Entry) : String :=
  jObj [
    jField "id" (jStr e.id),
    jField "timestamp" (jStr e.timestamp),
    jField "video_name" (jStr e.video_name),
    jField "artifacts_folder" (jStr e.artifacts_folder),
    jField "preservation_hash" (jStr e.preservation_hash),
    jField "summary" (jStr e.summary),
    jField "metadata" (jStr e.metadata),
    jField "forensic_evidence_matrix"
      (match e.forensic_evidence_matrix with | none => "null" | some f => jFerm f),
    jField "localization_details" (jOptStr e.localization_details),
    jField "pipeline_assessment" (jOptStr e.pipeline_assessment),
    jField "localizations" (jArr (e.localizations.map jLoc)),
    jField "localizations_count" (toString e.localizations_count),
    jField "anomaly_types" (jObj [
      jField "duplication" (toString e.anomaly_types.duplication),
      jField "insertion" (toString e.anomaly_types.insertion),
      jField "discontinuity" (toString e.anomaly_types.discontinuity)]),
    jField "saved_artifacts" (jObj (e.saved_artifacts.map (fun kv => jField kv.1 (jStr kv.2)))),
    jField "additional_info" (jAddInfo e.additional_info),
    jField "report_paths" (jObj [
      jField "pdf" (jOptStr e.report_pdf),
      jField "html" (jOptStr e.report_html),
      jField "json" (jOptStr e.report_json)])]

/-- Models `HistoryManager.export_analysis`.  An archive is a list of
`(arcname, content)` pairs; artifact file bytes are opaque, modelled as a
tag of the on-disk path read.  Order as in the source: the JSON report,
the rendered HTML (whose `AttributeError` propagates, so no archive is
returned), then one flattened entry per file in the record's artifact
directory when that directory exists. -/
def exportAnalysis (st : Store) (id : String) :
    Except String (Option (List (String × String))) × Store :=
  let (entry?, st1) := getAnalysis st id
  match entry? with
  | none => (.ok none, st1)
  | some e =>
    match generateHtmlReport e with
    | .error err => (.error err, st1)
    | .ok html =>
      let arts := (lookupDirs st1.artifactDirs e.artifacts_folder).getD []
      (.ok (some ([("analysis_report.json", jsonDumpEntry e),
                   ("analysis_report.html", html)] ++
            arts.map (fun f => ("artifacts/" ++ f, "@file:" ++ e.artifacts_folder ++ "/" ++ f)))),
       st1)

/-! ## Helper lemmas -/

lemma find?_append_of_none {α : Type} (p : α → Bool) (l₁ l₂ : List α)
    (h : ∀ a ∈ l₁, p a = false) :
    (l₁ ++ l₂).find? p = l₂.find? p := by
  induction l₁ with
  | nil => rfl
  | cons a t ih =>
    have ha := h a (List.mem_cons_self a t)
    simp only [List.cons_append, List.find?, ha]
    exact ih (fun x hx => h x (List.mem_cons_of_mem a hx))

lemma loadHistory_dirs (st : Store) : (loadHistory st).2.artifactDirs = st.artifactDirs := by
  cases h : st.hfile <;> simp [loadHistory, h]

lemma loadHistory_disk (st : Store) : (loadHistory st).2.disk = st.disk := by
  cases h : st.hfile <;> simp [loadHistory, h]

lemma loadHistory_hfile (st : Store) :
    (loadHistory st).2.hfile = HFile.ok (loadHistory st).1 := by
  cases h : st.hfile <;> simp [loadHistory, h]

lemma take_getElem? {α : Type} (l : List α) (n j : Nat) (x : α) :
    (l.take n)[j]? = some x ↔ j < n ∧ l[j]? = some x := by
  induction l generalizing n j with
  | nil => simp
  | cons a t ih =>
    cases n with
    | zero => simp
    | succ n =>
      cases j with
      | zero => simp
      | succ j => simpa [Nat.succ_lt_succ_iff] using ih n j

lemma frameOps_mem (folder : String) (disk : List String) (locs : List Loc) :
    ∀ (i₀ : Nat) (op : ArtifactOp),
      op ∈ frameOps folder disk i₀ locs ↔
        ∃ j loc, locs[j]? = some loc ∧ imageResolvable disk loc = true ∧
          op = mkFrameOp folder (i₀ + j) loc := by
  induction locs with
  | nil => intro i₀ op; simp [frameOps]
  | cons l t ih =>
    intro i₀ op
    simp only [frameOps, List.mem_append]
    constructor
    · rintro (h | h)
      · by_cases hr : imageResolvable disk l
        · simp only [hr, if_true, List.mem_singleton] at h
          exact ⟨0, l, by simp, hr, by simpa using h⟩
        · simp [hr] at h
      · obtain ⟨j, loc, hj, hres, hop⟩ := (ih (i₀ + 1) op).mp h
        refine ⟨j + 1, loc, by simpa using hj, hres, ?_⟩
        rw [hop]
        have harith : i₀ + 1 + j = i₀ + (j + 1) := by omega
        rw [harith]
    · rintro ⟨j, loc, hj, hres, hop⟩
      cases j with
      | zero =>
        left
        simp only [List.getElem?_cons_zero, Option.some.injEq] at hj
        subst hj
        simp [hres, hop]
      | succ j =>
        right
        apply (ih (i₀ + 1) op).mpr
        refine ⟨j, loc, by simpa using hj, hres, ?_⟩
        rw [hop]
        have harith : i₀ + (j + 1) = i₀ + 1 + j := by omega
        rw [harith]

lemma frameOps_length_le (folder : String) (disk : List String) :
    ∀ (i₀ : Nat) (locs : List Loc), (frameOps folder disk i₀ locs).length ≤ locs.length := by
  intro i₀ locs
  induction locs generalizing i₀ with
  | nil => simp [frameOps]
  | cons l t ih =>
    have := ih (i₀ + 1)
    cases hr : imageResolvable disk l <;> simp [frameOps, hr] <;> omega

lemma imageResolvable_src_mem (disk : List String) (loc : Loc)
    (h : imageResolvable disk loc = true) : loc.image.getD "" ∈ disk := by
  cases himg : loc.image with
  | none => simp [imageResolvable, himg] at h
  | some p =>
    simp only [imageResolvable, himg, Bool.and_eq_true] at h
    simpa [himg] using h.2

lemma reportOp_src_mem (p? : Option String) (key folder : String) (disk : List String)
    (op : ArtifactOp) (h : op ∈ reportOp p? key folder disk) : op.src ∈ disk := by
  cases hp : p? with
  | none => simp [reportOp, hp] at h
  | some p =>
    simp only [reportOp, hp] at h
    split at h
    next hcond =>
      simp only [List.mem_singleton] at h
      rw [h]
      have hcond' : (p != "") = true ∧ disk.contains p = true := by simpa using hcond
      simpa using hcond'.2
    next => simp at h

lemma saveArtifactOps_src_mem (r : AnalysisResult) (folder : String) (disk : List String) :
    ∀ op ∈ saveArtifactOps r folder disk, op.src ∈ disk := by
  intro op hop
  simp only [saveArtifactOps, List.mem_append] at hop
  rcases hop with ((((h | h) | h) | h) | h)
  · simp only [plotOps] at h
    obtain ⟨pv, _, hpv⟩ := List.mem_filterMap.mp h
    split at hpv
    next hcond =>
      cases Option.some.inj hpv
      simpa using hcond
    next => exact absurd hpv (by simp)
  · obtain ⟨j, loc, _, hres, hop'⟩ := (frameOps_mem folder disk _ 0 op).mp h
    rw [hop']
    exact imageResolvable_src_mem disk loc hres
  · exact reportOp_src_mem _ _ _ _ _ h
  · exact reportOp_src_mem _ _ _ _ _ h
  · exact reportOp_src_mem _ _ _ _ _ h

/-- Number of localizations whose event tag, after Python's replace-all of
`"anomaly_"`, equals the given kind (the characterization of what the
`_count_anomaly_types` loop counts). -/
def countRep (locs : List Loc) (k : String) : Nat :=
  (locs.filter (fun l => stripEvent l == k)).length

lemma countLoop_spec (locs : List Loc) : ∀ acc : AnomalyCounts,
    countLoop acc locs =
      ⟨acc.duplication + countRep locs "duplication",
       acc.insertion + countRep locs "insertion",
       acc.discontinuity + countRep locs "discontinuity"⟩ := by
  induction locs with
  | nil => intro acc; simp [countLoop, countRep]
  | cons l t ih =>
    intro acc
    simp only [countLoop]
    by_cases h1 : stripEvent l = "duplication"
    · rw [if_pos h1, ih]
      simp [countRep, List.filter_cons, h1]
      omega
    · rw [if_neg h1]
      by_cases h2 : stripEvent l = "insertion"
      · rw [if_pos h2, ih]
        simp [countRep, List.filter_cons, h2]
        omega
      · rw [if_neg h2]
        by_cases h3 : stripEvent l = "discontinuity"
        · rw [if_pos h3, ih]
          simp [countRep, List.filter_cons, h3]
          omega
        · rw [if_neg h3, ih]
          simp [countRep, List.filter_cons, h1, h2, h3]

lemma countAnomalyTypes_spec (r : AnalysisResult) :
    countAnomalyTypes r =
      ⟨countRep r.localizations "duplication",
       countRep r.localizations "insertion",
       countRep r.localizations "discontinuity"⟩ := by
  simpa using countLoop_spec r.localizations ⟨0, 0, 0⟩

lemma get_after_save (st : Store) (r : AnalysisResult) (name : String)
    (info : Option AddInfo) (fid now : String) (b : Bool)
    (hfresh : ∀ e ∈ (loadHistory st).1, e.id ≠ fid) :
    (getAnalysis (saveAnalysis st r name info fid now b).2 fid).1 =
      some (buildEntry r name info fid now st.disk) := by
  have hstep : ∀ e ∈ (loadHistory st).1, (e.id == fid) = false := by
    intro e he
    exact beq_eq_false_iff_ne.mpr (hfresh e he)
  cases hst : st.hfile with
  | ok l =>
    simp only [loadHistory, hst] at hstep
    simp only [getAnalysis, saveAnalysis, loadHistory, hst]
    rw [find?_append_of_none _ _ _ hstep]
    simp [buildEntry, List.find?]
  | corrupt =>
    simp only [getAnalysis, saveAnalysis, loadHistory, hst]
    simp [buildEntry, List.find?]
  | absent =>
    simp only [getAnalysis, saveAnalysis, loadHistory, hst]
    simp [buildEntry, List.find?]

lemma exportAnalysis_none (st : Store) (id : String)
    (h : (getAnalysis st id).1 = none) :
    (exportAnalysis st id).1 = Except.ok none := by
  cases hst : st.hfile with
  | ok l =>
    simp only [getAnalysis, loadHistory, hst] at h
    simp [exportAnalysis, getAnalysis, loadHistory, hst, h]
  | corrupt => simp [exportAnalysis, getAnalysis, loadHistory, hst]
  | absent => simp [exportAnalysis, getAnalysis, loadHistory, hst]

lemma exportAnalysis_some (st : Store) (id : String) (e : Entry) (f : FERM)
    (hget : (getAnalysis st id).1 = some e)
    (hferm : e.forensic_evidence_matrix = some f) :
    ∃ html, generateHtmlReport e = Except.ok html ∧
      (exportAnalysis st id).1 = Except.ok (some
        ([("analysis_report.json", jsonDumpEntry e), ("analysis_report.html", html)] ++
         ((lookupDirs st.artifactDirs e.artifacts_folder).getD []).map
           (fun fn => ("artifacts/" ++ fn, "@file:" ++ e.artifacts_folder ++ "/" ++ fn)))) := by
  cases hg : generateHtmlReport e with
  | error err =>
    simp only [generateHtmlReport, hferm] at hg
    exact Except.noConfusion hg
  | ok html =>
    refine ⟨html, rfl, ?_⟩
    cases hst : st.hfile with
    | ok l =>
      simp only [getAnalysis, loadHistory, hst] at hget
      simp [exportAnalysis, getAnalysis, loadHistory, hst, hget, hg]
    | corrupt => simp [getAnalysis, loadHistory, hst] at hget
    | absent => simp [getAnalysis, loadHistory, hst] at hget

/-! ## Definitions following the claims' words (for refinement checks) -/

/-- Follows the claim wording of C6 ("after removing the `anomaly_`
prefix"): strips one leading `anomaly_` when present, to be compared with
the replace-all the code actually performs. -/
def specStripKind (s : String) : String :=
  if "anomaly_".data.isPrefixOf s.data then ⟨s.data.drop 8⟩ else s

/-- Follows the claim wording of C2: the anomaly-frame mapping the claim
predicts — the first 3 localization events that carry a resolvable image
path, keyed `anomaly_frame_0..2` in encounter order. -/
def specFirstThreeCarriers (r : AnalysisResult) (folder : String) (disk : List String) :
    List (String × String) :=
  (((r.localizations.filter (fun l => imageResolvable disk l)).take 3).enum).map
    (fun p => ("anomaly_frame_" ++ toString p.1,
               folder ++ "/sample_anomaly_frame_" ++ toString p.1 ++ ".jpg"))

/-! ## Concrete stores, results and records used by witnesses -/

/-- An empty, healthy store. -/
def stEmpty : Store :=
  { hfile := .ok [], artifactDirs := [], rootExists := true, disk := [], settings := [] }

/-- A result with no attachments and a well-formed evidence matrix. -/
def rEmpty : AnalysisResult :=
  { preservation_hash := "abc123", summary := "ok", metadata := "meta"
    forensic_evidence_matrix := some ⟨some ⟨some "Tinggi", []⟩⟩
    localization_details := none, pipeline_assessment := none
    localizations := [], plots := []
    pdf_report_path := none, html_report_path := none, json_report_path := none }

/-- The spec's worked example result: one `anomaly_duplication` event. -/
def r6 : AnalysisResult :=
  { rEmpty with localizations :=
      [⟨some "anomaly_duplication", some 1, some ((5 : ℚ) / 2), some ((3 : ℚ) / 2),
        some "High", none, none⟩] }

/-- A result whose single event tag `duplicationanomaly_` separates
replace-all from prefix removal. -/
def r6x : AnalysisResult :=
  { rEmpty with localizations :=
      [⟨some "duplicationanomaly_", none, none, none, none, none, none⟩] }

/-- A localization without an image path. -/
def locNoImg : Loc := ⟨some "anomaly_discontinuity", none, none, none, none, none, none⟩

/-- A localization carrying an image path. -/
def locImg (p : String) : Loc := ⟨some "anomaly_duplication", none, none, none, none, none, some p⟩

/-- Four localizations: the first without an image, then three carrying
resolvable images. -/
def r2x : AnalysisResult :=
  { rEmpty with localizations := [locNoImg, locImg "a.jpg", locImg "b.jpg", locImg "c.jpg"] }

/-- The disk for `r2x`: all three images exist. -/
def disk2x : List String := ["a.jpg", "b.jpg", "c.jpg"]

/-- A store whose backing file holds unparseable JSON. -/
def stCorrupt : Store :=
  { hfile := .corrupt, artifactDirs := [], rootExists := true, disk := [], settings := [] }

/-- A fully populated concrete record for renderer witnesses. -/
def e9 : Entry :=
  { id := "w9", timestamp := "2025-02-03T04:05:06.789012", video_name := "v.mp4"
    artifacts_folder := "analysis_artifacts/w9", preservation_hash := "deadbeefdeadbeefdeadbeef"
    summary := "s", metadata := "m"
    forensic_evidence_matrix := some ⟨some ⟨some "Tinggi", [⟨some "Temuan", some "High", some "Interpretasi"⟩]⟩⟩
    localization_details := none, pipeline_assessment := none
    localizations := [⟨some "anomaly_duplication", some 1, some ((5 : ℚ) / 2), some ((3 : ℚ) / 2),
      some "High", some [("ssim_drop", "0.4")], none⟩]
    localizations_count := 1, anomaly_types := ⟨1, 0, 0⟩
    saved_artifacts := [("kmeans_temporal", "analysis_artifacts/w9/kmeans.png")]
    additional_info := none, report_pdf := none, report_html := none, report_json := none }

/-! ## Claim theorems -/

/-- C1: round trip of save and get — for every store, result and video
name, with the generated id fresh (the `uuid.uuid4()` uniqueness
assumption), `get_analysis` at the id returned by `save_analysis` yields
a record whose `video_name`, `preservation_hash` and `localizations`
equal the inputs. -/
theorem save_get_round_trip (st : Store) (r : AnalysisResult) (name : String)
    (info : Option AddInfo) (fid now : String) (b : Bool)
    (hfresh : ∀ e ∈ (loadHistory st).1, e.id ≠ fid) :
    ∃ e, (getAnalysis (saveAnalysis st r name info fid now b).2
            (saveAnalysis st r name info fid now b).1).1 = some e ∧
      e.video_name = name ∧ e.preservation_hash = r.preservation_hash ∧
      e.localizations = r.localizations :=
  ⟨buildEntry r name info fid now st.disk,
   get_after_save st r name info fid now b hfresh, rfl, rfl, rfl⟩

/-- Witness for C1: the round trip at a concrete empty store. -/
theorem save_get_round_trip_witness :
    (∀ e ∈ (loadHistory stEmpty).1, e.id ≠ "id-1") ∧
    (∃ e, (getAnalysis (saveAnalysis stEmpty rEmpty "video.mp4" none "id-1" "2025-01-01T00:00:00" true).2
            (saveAnalysis stEmpty rEmpty "video.mp4" none "id-1" "2025-01-01T00:00:00" true).1).1 = some e ∧
      e.video_name = "video.mp4" ∧ e.preservation_hash = rEmpty.preservation_hash ∧
      e.localizations = rEmpty.localizations) :=
  ⟨by simp [stEmpty, loadHistory],
   save_get_round_trip stEmpty rEmpty "video.mp4" none "id-1" "2025-01-01T00:00:00" true
     (by simp [stEmpty, loadHistory])⟩

/-- C4: self-healing load — on an absent or unparseable backing file,
`load_history` resets the durable store to an empty collection and
returns the empty sequence, and a subsequent `save_analysis` succeeds
normally (returns the id, and the record is retrievable). -/
theorem self_healing_load (st : Store) (r : AnalysisResult) (name : String)
    (info : Option AddInfo) (fid now : String) (b : Bool)
    (h : st.hfile = HFile.corrupt ∨ st.hfile = HFile.absent) :
    (loadHistory st).1 = [] ∧ (loadHistory st).2.hfile = HFile.ok [] ∧
    (saveAnalysis (loadHistory st).2 r name info fid now b).1 = fid ∧
    (getAnalysis (saveAnalysis (loadHistory st).2 r name info fid now b).2 fid).1 =
      some (buildEntry r name info fid now st.disk) := by
  have h1 : (loadHistory st).1 = [] := by rcases h with h | h <;> simp [loadHistory, h]
  have h2 : (loadHistory st).2.hfile = HFile.ok [] := by
    rcases h with h | h <;> simp [loadHistory, h]
  refine ⟨h1, h2, rfl, ?_⟩
  have hfresh : ∀ e ∈ (loadHistory (loadHistory st).2).1, e.id ≠ fid := by
    intro e he
    rw [loadHistory, h2] at he
    simp at he
  have hmain := get_after_save (loadHistory st).2 r name info fid now b hfresh
  rwa [loadHistory_disk] at hmain

/-- Witness for C4 at a concrete corrupted store. -/
theorem self_healing_load_witness :
    (stCorrupt.hfile = HFile.corrupt ∨ stCorrupt.hfile = HFile.absent) ∧
    ((loadHistory stCorrupt).1 = [] ∧ (loadHistory stCorrupt).2.hfile = HFile.ok [] ∧
     (saveAnalysis (loadHistory stCorrupt).2 rEmpty "v.mp4" none "id-4" "t4" true).1 = "id-4" ∧
     (getAnalysis (saveAnalysis (loadHistory stCorrupt).2 rEmpty "v.mp4" none "id-4" "t4" true).2 "id-4").1 =
       some (buildEntry rEmpty "v.mp4" none "id-4" "t4" stCorrupt.disk)) :=
  ⟨Or.inl rfl,
   self_healing_load stCorrupt rEmpty "v.mp4" none "id-4" "t4" true (Or.inl rfl)⟩

/-- C7: `delete_all_history` returns the loaded record count, after which
`load_history` is empty and the artifact root exists with no entries. -/
theorem delete_all_contract (st : Store) :
    (deleteAllHistory st).1 = (loadHistory st).1.length ∧
    (loadHistory (deleteAllHistory st).2).1 = [] ∧
    (deleteAllHistory st).2.rootExists = true ∧
    (deleteAllHistory st).2.artifactDirs = [] := by
  cases h : st.hfile <;> simp [deleteAllHistory, loadHistory, h]

/-- C9: renderer determinism — `_generate_html_report` is a pure function
of the record (the embedding takes no clock, filesystem or randomness
input), so identical records render to byte-identical output. -/
theorem render_deterministic (e₁ e₂ : Entry) (h : e₁ = e₂) :
    generateHtmlReport e₁ = generateHtmlReport e₂ := by rw [h]

/-- Witness for C9 at a concrete record. -/
theorem render_deterministic_witness :
    e9 = e9 ∧ generateHtmlReport e9 = generateHtmlReport e9 :=
  ⟨rfl, render_deterministic e9 e9 rfl⟩

/-- A record for the delete examples (no rational payloads, so that
`decide` can evaluate record equality). -/
def e3 : Entry :=
  { id := "a3", timestamp := "2025-02-03T04:05:06", video_name := "v.mp4"
    artifacts_folder := "analysis_artifacts/a3", preservation_hash := "cafebabe"
    summary := "s", metadata := "m"
    forensic_evidence_matrix := some ⟨some ⟨some "Tinggi", []⟩⟩
    localization_details := none, pipeline_assessment := none
    localizations := [⟨some "anomaly_duplication", none, none, none, some "High", none, none⟩]
    localizations_count := 1, anomaly_types := ⟨1, 0, 0⟩
    saved_artifacts := [], additional_info := none
    report_pdf := none, report_html := none, report_json := none }

/-- A store holding `e3` whose artifact directory exists. -/
def st3x : Store :=
  { hfile := .ok [e3], artifactDirs := [("analysis_artifacts/a3", ["f.png"])]
    rootExists := true, disk := [], settings := [] }

/-- A corrupt-backing store with an unrelated artifact directory. -/
def st8x : Store :=
  { hfile := .corrupt, artifactDirs := [("analysis_artifacts/a8", [])]
    rootExists := true, disk := [], settings := [] }

/-- C8 counterexample: on a corrupt backing store, `delete_analysis` of a
missing id does return False, but the self-healing `load_history` inside
it rewrites the durable store (unparseable before, empty collection
after), contradicting the claim's "no write to the durable store
occurs". -/
theorem delete_missing_cex :
    st8x.hfile = HFile.corrupt ∧
    deleteAnalysis st8x "ghost" true =
      Except.ok (false, { st8x with hfile := HFile.ok [] }) := by
  constructor
  · rfl
  · rfl

/-- C8 (amended): on a parseable backing store, `delete_analysis` of an
id with no record returns False and leaves the entire state — records,
artifact directories, everything — unchanged; on an absent or corrupt
backing store it still returns False and leaves artifact directories
unchanged, but self-heals the durable collection to empty (a write). -/
theorem delete_missing_amended (st : Store) (id : String) (l : List Entry) (rmOk : Bool)
    (hok : st.hfile = HFile.ok l) (hnone : (getAnalysis st id).1 = none) :
    deleteAnalysis st id rmOk = Except.ok (false, st) := by
  simp only [getAnalysis, loadHistory, hok] at hnone
  simp [deleteAnalysis, getAnalysis, loadHistory, hok, hnone]

/-- Witness for C8 at a concrete parseable store. -/
theorem delete_missing_witness :
    st3x.hfile = HFile.ok [e3] ∧ (getAnalysis st3x "ghost").1 = none ∧
    deleteAnalysis st3x "ghost" true = Except.ok (false, st3x) :=
  ⟨rfl, by decide,
   delete_missing_amended st3x "ghost" [e3] true rfl (by decide)⟩

/-- C3 counterexample: the record exists and its artifact directory
exists, but the directory removal fails; `delete_analysis` then raises
the `OSError` instead of returning True (and the JSON collection, whose
rewrite follows the removal, keeps the record). -/
theorem delete_existing_cex :
    (getAnalysis st3x "a3").1 = some e3 ∧
    deleteAnalysis st3x "a3" false = Except.error "OSError" := by
  constructor
  · decide
  · rfl

/-- C3 (amended): `delete_analysis` on an existing id returns True and
removes the record from the JSON collection whenever the artifact
directory removal raises no error — in particular whenever the directory
does not exist, which is skipped; a raising removal instead propagates
the exception before the collection is rewritten. -/
theorem delete_existing_amended (st : Store) (id : String) (e : Entry) (rmOk : Bool)
    (hget : (getAnalysis st id).1 = some e)
    (hrm : (lookupDirs st.artifactDirs e.artifacts_folder).isSome = true → rmOk = true) :
    ∃ st', deleteAnalysis st id rmOk = Except.ok (true, st') ∧
      ∀ e' ∈ (loadHistory st').1, e'.id ≠ id := by
  cases hst : st.hfile with
  | ok l =>
    simp only [getAnalysis, loadHistory, hst] at hget
    cases hdir : (lookupDirs st.artifactDirs e.artifacts_folder).isSome with
    | true =>
      have hrmOk : rmOk = true := hrm hdir
      refine ⟨{ st with artifactDirs := removeDir st.artifactDirs e.artifacts_folder,
                        hfile := HFile.ok (l.filter (fun x => x.id != id)) }, ?_, ?_⟩
      · simp [deleteAnalysis, getAnalysis, loadHistory, hst, hget, hdir, hrmOk]
      · intro e' he'
        simp only [loadHistory] at he'
        exact bne_iff_ne.mp (List.mem_filter.mp he').2
    | false =>
      refine ⟨{ st with hfile := HFile.ok (l.filter (fun x => x.id != id)) }, ?_, ?_⟩
      · simp [deleteAnalysis, getAnalysis, loadHistory, hst, hget, hdir]
      · intro e' he'
        simp only [loadHistory] at he'
        exact bne_iff_ne.mp (List.mem_filter.mp he').2
  | corrupt => simp [getAnalysis, loadHistory, hst] at hget
  | absent => simp [getAnalysis, loadHistory, hst] at hget

/-- Witness for C3 at a concrete store whose directory removal succeeds. -/
theorem delete_existing_witness :
    ((getAnalysis st3x "a3").1 = some e3) ∧
    (∃ st', deleteAnalysis st3x "a3" true = Except.ok (true, st') ∧
      ∀ e' ∈ (loadHistory st').1, e'.id ≠ "a3") :=
  ⟨by decide,
   delete_existing_amended st3x "a3" e3 true (by decide) (fun _ => rfl)⟩

/-- C6 counterexample: the event tag `duplicationanomaly_` does not start
with `anomaly_`, so the claim's prefix-removal rule leaves it unchanged
and predicts a duplication count of 0 — but the code's replace-all turns
it into `duplication` and counts it. -/
theorem anomaly_counts_cex :
    (countAnomalyTypes r6x).duplication = 1 ∧
    (r6x.localizations.filter
      (fun l => specStripKind (l.event.getD "") == "duplication")).length = 0 := by
  constructor
  · decide
  · decide

/-- C6 (amended): the saved record's `anomaly_types` maps each kind in
{duplication, insertion, discontinuity} to the number of localization
events whose event tag, after removing every occurrence of the substring
`anomaly_` (Python replace-all, not mere prefix removal), equals that
kind, unrecognized kinds excluded; and `localizations_count` equals the
length of the localizations sequence. -/
theorem anomaly_counts_amended (st : Store) (r : AnalysisResult) (name : String)
    (info : Option AddInfo) (fid now : String) (b : Bool)
    (hfresh : ∀ e ∈ (loadHistory st).1, e.id ≠ fid) :
    ∃ e, (getAnalysis (saveAnalysis st r name info fid now b).2 fid).1 = some e ∧
      e.anomaly_types = ⟨countRep r.localizations "duplication",
                         countRep r.localizations "insertion",
                         countRep r.localizations "discontinuity"⟩ ∧
      e.localizations_count = r.localizations.length :=
  ⟨buildEntry r name info fid now st.disk,
   get_after_save st r name info fid now b hfresh,
   by simp [buildEntry, countAnomalyTypes_spec], rfl⟩

/-- Witness for C6: the spec's worked example (one `anomaly_duplication`
event) yields counts {duplication 1, insertion 0, discontinuity 0} and
`localizations_count` 1. -/
theorem anomaly_counts_witness :
    (∀ e ∈ (loadHistory stEmpty).1, e.id ≠ "id-6") ∧
    (∃ e, (getAnalysis (saveAnalysis stEmpty r6 "video.mp4" none "id-6" "t6" true).2 "id-6").1 = some e ∧
      e.anomaly_types = ⟨countRep r6.localizations "duplication",
                         countRep r6.localizations "insertion",
                         countRep r6.localizations "discontinuity"⟩ ∧
      e.localizations_count = r6.localizations.length) ∧
    countRep r6.localizations "duplication" = 1 ∧
    countRep r6.localizations "insertion" = 0 ∧
    countRep r6.localizations "discontinuity" = 0 ∧
    r6.localizations.length = 1 :=
  ⟨by simp [stEmpty, loadHistory],
   anomaly_counts_amended stEmpty r6 "video.mp4" none "id-6" "t6" true
     (by simp [stEmpty, loadHistory]),
   by decide, by decide, by decide, rfl⟩

/-- C2 counterexample: with four localizations of which the first carries
no image and the next three carry resolvable images, the claim predicts
the three carriers copied under keys `anomaly_frame_0..2`, but the code
truncates to the first three events before filtering, copies only two
frames, and never produces the key `anomaly_frame_0`. -/
theorem artifact_frame_selection_cex :
    ("anomaly_frame_0" ∈ (specFirstThreeCarriers r2x "f" disk2x).map Prod.fst) ∧
    ("anomaly_frame_0" ∉ (save_artifacts r2x "f" disk2x).map Prod.fst) ∧
    3 ≤ (r2x.localizations.filter (fun l => imageResolvable disk2x l)).length := by
  refine ⟨?_, ?_, ?_⟩
  · decide
  · decide
  · decide

/-- C2 (amended): among only the first 3 localization events (by position
in the sequence), exactly those carrying a truthy image path that exists
on disk are copied, each keyed `anomaly_frame_i` by its position index
`i`; at most 3 anomaly-frame images are copied; and every copy performed
by `_save_artifacts` (plots, frames, reports) reads a source path that
exists on disk, so no output entry arises from a missing source. -/
theorem artifact_frame_selection_amended (r : AnalysisResult) (folder : String)
    (disk : List String) :
    (∀ op, op ∈ frameOps folder disk 0 (r.localizations.take 3) ↔
       ∃ i loc, i < 3 ∧ r.localizations[i]? = some loc ∧
         imageResolvable disk loc = true ∧ op = mkFrameOp folder i loc) ∧
    (frameOps folder disk 0 (r.localizations.take 3)).length ≤ 3 ∧
    (∀ op ∈ saveArtifactOps r folder disk, op.src ∈ disk) := by
  refine ⟨?_, ?_, saveArtifactOps_src_mem r folder disk⟩
  · intro op
    rw [frameOps_mem]
    constructor
    · rintro ⟨j, loc, hj, hres, hop⟩
      obtain ⟨hlt, hget⟩ := (take_getElem? r.localizations 3 j loc).mp hj
      exact ⟨j, loc, hlt, hget, hres, by simpa using hop⟩
    · rintro ⟨i, loc, hi, hget, hres, hop⟩
      exact ⟨i, loc, (take_getElem? r.localizations 3 i loc).mpr ⟨hi, hget⟩, hres,
        by simpa using hop⟩
  · calc (frameOps folder disk 0 (r.localizations.take 3)).length
        ≤ (r.localizations.take 3).length := frameOps_length_le folder disk 0 _
      _ ≤ 3 := by simp [List.length_take]

/-- Witness for C2: in the concrete four-event result, the event at
position 1 carries a resolvable image and its copy appears with key
`anomaly_frame_1`. -/
theorem artifact_frame_selection_witness :
    (mkFrameOp "f" 1 (locImg "a.jpg") ∈ frameOps "f" disk2x 0 (r2x.localizations.take 3)) ∧
    (1 < 3) ∧ (r2x.localizations[1]? = some (locImg "a.jpg")) ∧
    (imageResolvable disk2x (locImg "a.jpg") = true) ∧
    ((frameOps "f" disk2x 0 (r2x.localizations.take 3)).length ≤ 3) ∧
    (∀ op ∈ saveArtifactOps r2x "f" disk2x, op.src ∈ disk2x) :=
  ⟨((artifact_frame_selection_amended r2x "f" disk2x).1 _).mpr
     ⟨1, locImg "a.jpg", by decide, by decide, by decide, rfl⟩,
   by decide, by decide, by decide,
   (artifact_frame_selection_amended r2x "f" disk2x).2.1,
   (artifact_frame_selection_amended r2x "f" disk2x).2.2⟩

/-- A record with a well-formed evidence matrix whose artifact directory
holds two files. -/
def e5 : Entry :=
  { e3 with id := "w5", artifacts_folder := "analysis_artifacts/w5"
            saved_artifacts := [("kmeans_temporal", "analysis_artifacts/w5/k.png")] }

/-- The store holding `e5` and its artifact directory. -/
def st5 : Store :=
  { hfile := .ok [e5], artifactDirs := [("analysis_artifacts/w5", ["k.png", "frame.jpg"])]
    rootExists := true, disk := [], settings := [] }

/-- A stored record whose `forensic_evidence_matrix` is JSON null. -/
def e5x : Entry :=
  { e3 with id := "x5", forensic_evidence_matrix := none
            artifacts_folder := "analysis_artifacts/x5" }

/-- The store holding `e5x` (its artifact directory even exists). -/
def st5x : Store :=
  { hfile := .ok [e5x], artifactDirs := [("analysis_artifacts/x5", ["p.png"])]
    rootExists := true, disk := [], settings := [] }

/-- C5 counterexample: the record exists, but its stored
`forensic_evidence_matrix` is null (as `save_analysis` stores for results
lacking that attribute), so the renderer raises `AttributeError` inside
`export_analysis` and no archive is returned. -/
theorem export_contract_cex :
    (getAnalysis st5x "x5").1 = some e5x ∧
    (exportAnalysis st5x "x5").1 = Except.error "AttributeError" := by
  constructor
  · decide
  · rfl

/-- C5 (amended): `export_analysis` returns an absent result for ids with
no record; for every stored record whose `forensic_evidence_matrix` is
non-null it returns an archive holding exactly one JSON entry
(`analysis_report.json`, the serialized record), one HTML entry
(`analysis_report.html`, the rendered report), and one `artifacts/`-
prefixed entry per file present in the record's artifact directory, each
under its base filename; a record whose evidence matrix is null instead
makes the renderer raise, so no archive is produced (see the
counterexample). -/
theorem export_contract_amended (st : Store) (id : String) :
    ((getAnalysis st id).1 = none → (exportAnalysis st id).1 = Except.ok none) ∧
    (∀ e f, (getAnalysis st id).1 = some e → e.forensic_evidence_matrix = some f →
      ∃ html, generateHtmlReport e = Except.ok html ∧
        (exportAnalysis st id).1 = Except.ok (some
          ([("analysis_report.json", jsonDumpEntry e), ("analysis_report.html", html)] ++
           ((lookupDirs st.artifactDirs e.artifacts_folder).getD []).map
             (fun fn => ("artifacts/" ++ fn, "@file:" ++ e.artifacts_folder ++ "/" ++ fn))))) :=
  ⟨fun h => exportAnalysis_none st id h,
   fun e f hget hferm => exportAnalysis_some st id e f hget hferm⟩

/-- Witness for C5: both branches at concrete stores — a present record
with two artifact files, and a missing id. -/
theorem export_contract_witness :
    ((getAnalysis st5 "w5").1 = some e5) ∧
    (e5.forensic_evidence_matrix = some ⟨some ⟨some "Tinggi", []⟩⟩) ∧
    (∃ html, generateHtmlReport e5 = Except.ok html ∧
      (exportAnalysis st5 "w5").1 = Except.ok (some
        ([("analysis_report.json", jsonDumpEntry e5), ("analysis_report.html", html)] ++
         ((lookupDirs st5.artifactDirs e5.artifacts_folder).getD []).map
           (fun fn => ("artifacts/" ++ fn, "@file:" ++ e5.artifacts_folder ++ "/" ++ fn))))) ∧
    ((getAnalysis st5 "nope").1 = none) ∧
    ((exportAnalysis st5 "nope").1 = Except.ok none) :=
  ⟨by decide, rfl,
   (export_contract_amended st5 "w5").2 e5 ⟨some ⟨some "Tinggi", []⟩⟩ (by decide) rfl,
   by decide,
   (export_contract_amended st5 "nope").1 (by decide)⟩

/-- A record with a non-null evidence matrix whose artifact directory
does not exist. -/
def e10 : Entry :=
  { e3 with id := "w10", artifacts_folder := "analysis_artifacts/w10" }

/-- The store holding `e10`, with no artifact directories at all. -/
def st10 : Store :=
  { hfile := .ok [e10], artifactDirs := [], rootExists := true, disk := [], settings := [] }

/-- A null-matrix record whose artifact directory does not exist. -/
def e10x : Entry :=
  { e3 with id := "y10", forensic_evidence_matrix := none
            artifacts_folder := "analysis_artifacts/y10" }

/-- The store holding `e10x`, with no artifact directories. -/
def st10x : Store :=
  { hfile := .ok [e10x], artifactDirs := [], rootExists := true, disk := [], settings := [] }

/-- C10 counterexample: a stored record whose artifact directory is
missing and whose `forensic_evidence_matrix` is null makes
`export_analysis` raise `AttributeError` rather than return the
two-entry archive the claim promises for every such record. -/
theorem export_missing_dir_cex :
    (getAnalysis st10x "y10").1 = some e10x ∧
    lookupDirs st10x.artifactDirs e10x.artifacts_folder = none ∧
    (exportAnalysis st10x "y10").1 = Except.error "AttributeError" := by
  refine ⟨by decide, rfl, rfl⟩

/-- C10 (amended): for every stored record whose artifact directory does
not exist at export time and whose `forensic_evidence_matrix` is
non-null, `export_analysis` still returns an archive containing exactly
the `analysis_report.json` and `analysis_report.html` entries and nothing
under `artifacts/`. -/
theorem export_missing_dir_amended (st : Store) (id : String) (e : Entry) (f : FERM)
    (hget : (getAnalysis st id).1 = some e)
    (hferm : e.forensic_evidence_matrix = some f)
    (hdir : lookupDirs st.artifactDirs e.artifacts_folder = none) :
    ∃ html, generateHtmlReport e = Except.ok html ∧
      (exportAnalysis st id).1 = Except.ok (some
        [("analysis_report.json", jsonDumpEntry e), ("analysis_report.html", html)]) := by
  obtain ⟨html, hg, hexp⟩ := exportAnalysis_some st id e f hget hferm
  refine ⟨html, hg, ?_⟩
  rw [hexp, hdir]
  simp

/-- Witness for C10 at a concrete store with no artifact directory. -/
theorem export_missing_dir_witness :
    ((getAnalysis st10 "w10").1 = some e10) ∧
    (e10.forensic_evidence_matrix = some ⟨some ⟨some "Tinggi", []⟩⟩) ∧
    (lookupDirs st10.artifactDirs e10.artifacts_folder = none) ∧
    (∃ html, generateHtmlReport e10 = Except.ok html ∧
      (exportAnalysis st10 "w10").1 = Except.ok (some
        [("analysis_report.json", jsonDumpEntry e10), ("analysis_report.html", html)])) :=
  ⟨by decide, rfl, rfl,
   export_missing_dir_amended st10 "w10" e10 ⟨some ⟨some "Tinggi", []⟩⟩ (by decide) rfl rfl⟩
